import Mathlib

/-!
Verification of the risk-scoring and simulation engine of the academic
early-warning dashboard.

The development shallowly embeds the core of the repository:

* app/risk_engine.py        (namespace AppRisk): the behavioral rule
  evaluator, the risk-level mapping, the trend simulation and the
  what-if simulator;
* app/analytics_engine.py   (namespace Analytics): the psychometric rule
  evaluator, its risk-level mapping, the simulated trend, the silent
  collapse scoring and the ML/rule fusion arithmetic;
* admin-dashboard/risk_engine.py (namespace AdminRisk): the admin trend
  simulation.

Conventions of the embedding: Python ints become Lean Int, Python floats
become Rat (the float arithmetic in the source stays far from any
rounding boundary in every property proved here), templated explanation
strings become constructors of an inductive type carrying the embedded
values, and randomness is made explicit as a noise-oracle argument.
-/

/-- Truncation toward zero, the behavior of the Python builtin int() on
a float value. -/
def pytrunc (q : ℚ) : ℤ :=
  if 0 ≤ q then ⌊q⌋ else ⌈q⌉

/-- One accumulation step of a rule evaluator: when the predicate holds,
add the rule's weight to the running score and append its message. -/
def ruleStep {α : Type} (c : Prop) [Decidable c] (w : ℤ) (t : α)
    (acc : ℤ × List α) : ℤ × List α :=
  if c then (acc.1 + w, acc.2 ++ [t]) else acc

namespace AppRisk

/-- Student record of app/risk_engine.py (dataclass Student).
Counts are Python ints (modelled as Int), rates are floats (Rat). -/
structure Student where
  student_id : ℤ
  name : String
  email : String
  department : String
  year : ℤ
  attendance_rate : ℚ
  late_submissions : ℤ
  missed_submissions : ℤ
  workload_tasks : ℤ
  previous_attendance : ℚ
  previous_workload : ℤ
  deriving DecidableEq, Repr

/-- The five templated explanation strings appended by compute_risk,
each carrying the value(s) embedded into the message. (The workload and
drop messages display a rounded value; the constructor keeps the exact
one, which only distinguishes strings the source could merge and is
irrelevant to the properties proved below.) -/
inductive Reason where
  | attendanceBelow75 (current : ℚ)
  | multipleLateSubmissions (count : ℤ)
  | workloadIncreasedPct (pct : ℚ)
  | missingAssignments (count : ℤ)
  | suddenAttendanceDrop (droppct : ℚ)
  deriving DecidableEq, Repr

/-- Embedding of compute_risk (app/risk_engine.py lines 152-199):
five fixed-weight rules accumulated in order, score capped at 100. -/
def compute_risk (student : Student) : ℤ × List Reason :=
  let acc : ℤ × List Reason := (0, [])
  -- Rule 1: Attendance Drop
  let acc :=
    if student.attendance_rate < 75 then
      (acc.1 + 20, acc.2 ++ [Reason.attendanceBelow75 student.attendance_rate])
    else acc
  -- Rule 2: Consecutive Late Submissions
  let acc :=
    if student.late_submissions ≥ 2 then
      (acc.1 + 25, acc.2 ++ [Reason.multipleLateSubmissions student.late_submissions])
    else acc
  -- Rule 3: Workload Spike (guarded: skipped unless previous_workload > 0)
  let acc :=
    if student.previous_workload > 0 then
      let workload_increase : ℚ :=
        ((student.workload_tasks : ℚ) - (student.previous_workload : ℚ))
          / (student.previous_workload : ℚ) * 100
      if workload_increase > 40 then
        (acc.1 + 15, acc.2 ++ [Reason.workloadIncreasedPct workload_increase])
      else acc
    else acc
  -- Rule 4: Missing Submissions
  let acc :=
    if student.missed_submissions > 0 then
      (acc.1 + 25, acc.2 ++ [Reason.missingAssignments student.missed_submissions])
    else acc
  -- Rule 5: Sudden Behavior Change
  let attendance_drop : ℚ := student.previous_attendance - student.attendance_rate
  let acc :=
    if attendance_drop > 20 then
      (acc.1 + 15, acc.2 ++ [Reason.suddenAttendanceDrop attendance_drop])
    else acc
  -- Cap at 100
  (min 100 acc.1, acc.2)

/-- Spec-side reading of the behavioral rule table: the list of
(weight, explanation) pairs of exactly the triggered rules, in
evaluation order. -/
def triggeredBehavioralRules (s : Student) : List (ℤ × Reason) :=
  (if s.attendance_rate < 75 then
      [((20 : ℤ), Reason.attendanceBelow75 s.attendance_rate)] else []) ++
  (if s.late_submissions ≥ 2 then
      [((25 : ℤ), Reason.multipleLateSubmissions s.late_submissions)] else []) ++
  (if s.previous_workload > 0 ∧
      ((s.workload_tasks : ℚ) - (s.previous_workload : ℚ))
        / (s.previous_workload : ℚ) * 100 > 40 then
      [((15 : ℤ), Reason.workloadIncreasedPct
        (((s.workload_tasks : ℚ) - (s.previous_workload : ℚ))
          / (s.previous_workload : ℚ) * 100))] else []) ++
  (if s.missed_submissions > 0 then
      [((25 : ℤ), Reason.missingAssignments s.missed_submissions)] else []) ++
  (if s.previous_attendance - s.attendance_rate > 20 then
      [((15 : ℤ), Reason.suddenAttendanceDrop
        (s.previous_attendance - s.attendance_rate))] else [])

/-- Embedding of get_risk_level (app/risk_engine.py lines 202-216). -/
def get_risk_level (score : ℤ) : String :=
  if score ≤ 30 then "Low"
  else if score ≤ 60 then "Moderate"
  else "High"

/-- One row of the trend returned by simulate_trend: the week number
embedded in the displayed string, the score, and its level. -/
structure TrendEntry where
  week : ℕ
  score : ℤ
  level : String
  deriving DecidableEq, Repr

/-- Embedding of simulate_trend (app/risk_engine.py lines 337-367).
The two random draws are explicit arguments: startDelta stands for
randint(20, 40) and noise week for the randint(-5, 5) of each week.
For weeks = 0 the source raises IndexError on the final assignment;
here the final List.set is a no-op, and every property proved about
this function assumes 1 <= weeks. -/
def simulate_trend (base_risk : ℤ) (weeks : ℕ) (startDelta : ℤ)
    (noise : ℕ → ℤ) : List TrendEntry :=
  let start_risk : ℤ := max 10 (base_risk - startDelta)
  let trend : List TrendEntry := (List.range weeks).map (fun (week : ℕ) =>
    let progress : ℚ := if weeks > 1 then (week : ℚ) / ((weeks : ℚ) - 1) else 1
    let week_score : ℚ :=
      (start_risk : ℚ) + ((base_risk : ℚ) - (start_risk : ℚ)) * progress
        + (noise week : ℚ)
    let week_score : ℤ := max 0 (min 100 (pytrunc week_score))
    { week := week + 1, score := week_score, level := get_risk_level week_score })
  -- Ensure last week matches current risk: the source overwrites the
  -- score and level of the final entry (its week field stays weeks).
  trend.set (weeks - 1)
    { week := weeks, score := base_risk, level := get_risk_level base_risk }

/-- Intervention parameters of what_if_simulation: the two boolean fix
flags and the four optional granular targets. -/
structure WhatIfParams where
  fix_attendance : Bool
  fix_workload : Bool
  attendance_target : Option ℚ
  workload_target : Option ℤ
  late_subs_target : Option ℤ
  missed_subs_target : Option ℤ
  deriving DecidableEq, Repr

/-- Hypothetical attendance: a granular target overrides the binary fix
flag (fix resolves to 90.0), otherwise the current value passes through. -/
def hypoAttendance (s : Student) (p : WhatIfParams) : ℚ :=
  p.attendance_target.getD (if p.fix_attendance then 90 else s.attendance_rate)

/-- Hypothetical workload: target overrides fix (fix resolves to 10). -/
def hypoWorkload (s : Student) (p : WhatIfParams) : ℤ :=
  p.workload_target.getD (if p.fix_workload then 10 else s.workload_tasks)

/-- Hypothetical late-submission count. -/
def hypoLate (s : Student) (p : WhatIfParams) : ℤ :=
  p.late_subs_target.getD s.late_submissions

/-- Hypothetical missed-submission count. -/
def hypoMissed (s : Student) (p : WhatIfParams) : ℤ :=
  p.missed_subs_target.getD s.missed_submissions

/-- Hypothetical previous attendance: stabilized to the hypothetical
attendance whenever attendance is actively simulated. -/
def hypoPrevAttendance (s : Student) (p : WhatIfParams) : ℚ :=
  if p.attendance_target.isSome ∨ p.fix_attendance then hypoAttendance s p
  else s.previous_attendance

/-- The modified (hypothetical) student built by what_if_simulation: a
new record, field by field as in the source (lines 451-463). -/
def modifiedStudent (s : Student) (p : WhatIfParams) : Student :=
  { student_id := s.student_id
    name := s.name
    email := s.email
    department := s.department
    year := s.year
    attendance_rate := hypoAttendance s p
    late_submissions := hypoLate s p
    missed_submissions := hypoMissed s p
    workload_tasks := hypoWorkload s p
    previous_attendance := hypoPrevAttendance s p
    previous_workload := s.previous_workload }

/-- Items of the joined explanation string of a what-if result. -/
inductive Msg where
  | removed (r : Reason)
  | triggered (r : Reason)
  | stableAtBoundaries
  | noChangesSimulated
  deriving DecidableEq, Repr

/-- The summary message of a what-if result. -/
inductive Summary where
  | reducesBy (points : ℤ)
  | increasedBy (points : ℤ)
  | noImmediateChange
  deriving DecidableEq, Repr

/-- Result record of what_if_simulation. reductionPercent keeps the
exact rational; the source rounds the float to one decimal for display. -/
structure WhatIfResult where
  originalRisk : ℤ
  originalLevel : String
  newRisk : ℤ
  newLevel : String
  riskReduction : ℤ
  reductionPercent : ℚ
  explanation : List Msg
  summary : Summary
  interventions : ℚ × ℤ × ℤ × ℤ
  deriving DecidableEq, Repr

/-- Rules present originally but absent after the intervention. The
source computes this as a Python set difference and iterates it in
unspecified hash order; it is modelled in first-appearance order (the
reason lists are duplicate-free, and the properties proved below depend
only on membership and emptiness). -/
def removedRules (s : Student) (p : WhatIfParams) : List Reason :=
  (compute_risk s).2.filter
    (fun r => decide (r ∉ (compute_risk (modifiedStudent s p)).2))

/-- Rules newly present after the intervention. -/
def addedRules (s : Student) (p : WhatIfParams) : List Reason :=
  (compute_risk (modifiedStudent s p)).2.filter
    (fun r => decide (r ∉ (compute_risk s).2))

/-- Embedding of what_if_simulation (app/risk_engine.py lines 406-522). -/
def what_if_simulation (student : Student) (p : WhatIfParams) : WhatIfResult :=
  -- STEP 1: original risk
  let original_score := (compute_risk student).1
  -- STEP 2: hypothetical copy (a new record; the input is not written)
  let modified_student := modifiedStudent student p
  -- STEP 3: recompute risk on the hypothetical state
  let new_score := (compute_risk modified_student).1
  -- STEP 4: explanation from the diff of the triggered-rule sets
  let explanations : List Msg :=
    (removedRules student p).map Msg.removed
      ++ (addedRules student p).map Msg.triggered
  -- Fallback if no rules changed: only attendance and workload are
  -- compared against their original values.
  let explanations :=
    if explanations = [] then
      if hypoAttendance student p ≠ student.attendance_rate
          ∨ hypoWorkload student p ≠ student.workload_tasks then
        [Msg.stableAtBoundaries]
      else
        [Msg.noChangesSimulated]
    else explanations
  let reduction := original_score - new_score
  let summary :=
    if reduction > 0 then Summary.reducesBy reduction
    else if reduction < 0 then Summary.increasedBy |reduction|
    else Summary.noImmediateChange
  { originalRisk := original_score
    originalLevel := get_risk_level original_score
    newRisk := new_score
    newLevel := get_risk_level new_score
    riskReduction := reduction
    reductionPercent :=
      if original_score > 0 then reduction / (original_score : ℚ) * 100 else 0
    explanation := explanations
    summary := summary
    interventions :=
      (hypoAttendance student p, hypoWorkload student p,
        hypoLate student p, hypoMissed student p) }

/-- State-passing reading of what_if_simulation: alongside the result,
the state of the caller's (mutable, in Python) Student object at return.
The source only reads the input's fields and constructs modified_student
as a fresh object, so each post-call field is the field read from the
original. -/
def what_if_simulation_tracked (student : Student) (p : WhatIfParams) :
    WhatIfResult × Student :=
  (what_if_simulation student p,
    { student_id := student.student_id
      name := student.name
      email := student.email
      department := student.department
      year := student.year
      attendance_rate := student.attendance_rate
      late_submissions := student.late_submissions
      missed_submissions := student.missed_submissions
      workload_tasks := student.workload_tasks
      previous_attendance := student.previous_attendance
      previous_workload := student.previous_workload })

/-- The snapshot of the worked what-if example: attendance 60, three
late submissions, one missed, workload 20 up from 10, previous
attendance 80. -/
def exampleStudent : Student :=
  { student_id := 1000, name := "Alex Thompson",
    email := "alex.t@university.edu", department := "Computer Science",
    year := 2, attendance_rate := 60, late_submissions := 3,
    missed_submissions := 1, workload_tasks := 20,
    previous_attendance := 80, previous_workload := 10 }

/-- Intervention applying both fix flags and no granular target. -/
def bothFixesParams : WhatIfParams :=
  { fix_attendance := true, fix_workload := true, attendance_target := none,
    workload_target := none, late_subs_target := none,
    missed_subs_target := none }

/-- A benign snapshot: no behavioral rule triggers on it. -/
def calmStudent : Student :=
  { student_id := 1001, name := "Sarah Chen",
    email := "sarah.c@university.edu", department := "Data Science",
    year := 3, attendance_rate := 80, late_submissions := 0,
    missed_submissions := 0, workload_tasks := 10,
    previous_attendance := 80, previous_workload := 10 }

/-- Intervention that only sets the late-submissions granular target. -/
def lateOnlyParams : WhatIfParams :=
  { fix_attendance := false, fix_workload := false, attendance_target := none,
    workload_target := none, late_subs_target := some 1,
    missed_subs_target := none }

/-- Intervention with no fix flag and no granular target. -/
def idParams : WhatIfParams :=
  { fix_attendance := false, fix_workload := false, attendance_target := none,
    workload_target := none, late_subs_target := none,
    missed_subs_target := none }

end AppRisk

namespace Analytics

/-- Feature row of the psychometric variant (analytics_engine.py).
Only the nine survey fields read by compute_rule_risk, the trend
synthesis and the collapse detector are modelled; the dataset's other
columns never reach the embedded core. All dataset values are ints. -/
structure FeatureRow where
  anxiety_level : ℤ
  depression : ℤ
  sleep_quality : ℤ
  social_support : ℤ
  peer_pressure : ℤ
  academic_performance : ℤ
  study_load : ℤ
  bullying : ℤ
  mental_health_history : ℤ
  deriving DecidableEq, Repr

/-- The nine templated trigger strings appended by compute_rule_risk,
carrying the embedded feature value. -/
inductive Trigger where
  | highAnxiety (v : ℤ)
  | elevatedDepression (v : ℤ)
  | poorSleepQuality (v : ℤ)
  | insufficientSocialSupport (v : ℤ)
  | highPeerPressure (v : ℤ)
  | academicConcerns (v : ℤ)
  | bullyingExposure (v : ℤ)
  | excessiveStudyLoad (v : ℤ)
  | previousMentalHealthHistory
  deriving DecidableEq, Repr

/-- Embedding of compute_rule_risk (analytics_engine.py lines 307-368):
nine fixed-weight rules accumulated in order (one ruleStep per source
if-block), score capped at 100. -/
def compute_rule_risk (row : FeatureRow) : ℤ × List Trigger :=
  let acc : ℤ × List Trigger := (0, [])
  -- Rule 1: High Anxiety (>15 on 0-21 scale)
  let acc := ruleStep (row.anxiety_level > 15) 20
    (Trigger.highAnxiety row.anxiety_level) acc
  -- Rule 2: Depression Risk (>18 on 0-27 scale)
  let acc := ruleStep (row.depression > 18) 20
    (Trigger.elevatedDepression row.depression) acc
  -- Rule 3: Poor Sleep Quality (<2 on 0-5 scale)
  let acc := ruleStep (row.sleep_quality < 2) 15
    (Trigger.poorSleepQuality row.sleep_quality) acc
  -- Rule 4: Low Social Support (<2 on 1-3 scale)
  let acc := ruleStep (row.social_support < 2) 15
    (Trigger.insufficientSocialSupport row.social_support) acc
  -- Rule 5: High Peer Pressure (>3 on 1-5 scale)
  let acc := ruleStep (row.peer_pressure > 3) 10
    (Trigger.highPeerPressure row.peer_pressure) acc
  -- Rule 6: Academic Struggle (<2 on 0-5 scale)
  let acc := ruleStep (row.academic_performance < 2) 15
    (Trigger.academicConcerns row.academic_performance) acc
  -- Rule 7: Bullying Exposure (>3 on 0-5 scale)
  let acc := ruleStep (row.bullying > 3) 20
    (Trigger.bullyingExposure row.bullying) acc
  -- Rule 8: High Study Load (>4 on 0-5 scale)
  let acc := ruleStep (row.study_load > 4) 10
    (Trigger.excessiveStudyLoad row.study_load) acc
  -- Rule 9: Mental Health History
  let acc := ruleStep (row.mental_health_history = 1) 15
    Trigger.previousMentalHealthHistory acc
  -- Cap at 100
  (min 100 acc.1, acc.2)

/-- Spec-side reading of the psychometric rule table: (weight, trigger)
pairs of exactly the triggered rules, in evaluation order. -/
def triggeredPsychRules (r : FeatureRow) : List (ℤ × Trigger) :=
  (if r.anxiety_level > 15 then
      [((20 : ℤ), Trigger.highAnxiety r.anxiety_level)] else []) ++
  (if r.depression > 18 then
      [((20 : ℤ), Trigger.elevatedDepression r.depression)] else []) ++
  (if r.sleep_quality < 2 then
      [((15 : ℤ), Trigger.poorSleepQuality r.sleep_quality)] else []) ++
  (if r.social_support < 2 then
      [((15 : ℤ), Trigger.insufficientSocialSupport r.social_support)] else []) ++
  (if r.peer_pressure > 3 then
      [((10 : ℤ), Trigger.highPeerPressure r.peer_pressure)] else []) ++
  (if r.academic_performance < 2 then
      [((15 : ℤ), Trigger.academicConcerns r.academic_performance)] else []) ++
  (if r.bullying > 3 then
      [((20 : ℤ), Trigger.bullyingExposure r.bullying)] else []) ++
  (if r.study_load > 4 then
      [((10 : ℤ), Trigger.excessiveStudyLoad r.study_load)] else []) ++
  (if r.mental_health_history = 1 then
      [((15 : ℤ), Trigger.previousMentalHealthHistory)] else [])

/-- Embedding of get_risk_level (analytics_engine.py lines 371-377). -/
def get_risk_level (score : ℤ) : String :=
  if score ≥ 61 then "High"
  else if score ≥ 31 then "Moderate"
  else "Low"

/-- A row that triggers all nine psychometric rules (raw weight sum 140). -/
def allNineRow : FeatureRow :=
  { anxiety_level := 16, depression := 19, sleep_quality := 1,
    social_support := 1, peer_pressure := 4, academic_performance := 1,
    study_load := 5, bullying := 4, mental_health_history := 1 }

/-- Count of rising stress factors (compute_simulated_trend lines
124-129). -/
def rising_factors (row : FeatureRow) : ℤ :=
  (if row.anxiety_level > 12 then 1 else 0)
    + (if row.depression > 15 then 1 else 0)
    + (if row.sleep_quality < 2 then 1 else 0)
    + (if row.study_load > 3 then 1 else 0)

/-- Embedding of compute_simulated_trend (analytics_engine.py lines
113-148). The np.random.randint(-5, 6) draws of the seeded generator
are an explicit noise-oracle argument; the last element is overwritten
with final_score. -/
def compute_simulated_trend (row : FeatureRow) (final_score : ℤ)
    (noise : ℕ → ℤ) : List ℤ :=
  let rf := rising_factors row
  let base : ℤ := max 10 (final_score - 25 - rf * 5)
  let trend : List ℤ := (List.range 8).map (fun (i : ℕ) =>
    if rf ≥ 2 then
      -- Rising pattern: int((final_score - base) * (i / 7)) truncates
      -- the float product toward zero.
      let progress : ℤ := pytrunc (((final_score : ℚ) - (base : ℚ)) * ((i : ℚ) / 7))
      min 100 (max 0 (base + progress + noise i))
    else
      -- Stable or slightly fluctuating
      min 100 (max 0 (final_score + noise i)))
  trend.set 7 final_score

/-- Explanatory driver strings of the silent collapse detector. -/
inductive Driver where
  | sustainedIncrease
  | gradualIncrease
  | elevatedVariability
  | moderateFluctuations
  | extendedSupportNeed (periods : ℕ)
  | recurringSupportIndicators (periods : ℕ)
  | stabilityMaskingStrain
  | multiPeriodPattern
  | patternUnderObservation
  deriving DecidableEq, Repr

/-- Result record of compute_silent_collapse_risk. -/
structure SilentCollapseRisk where
  level : String
  score : ℤ
  drivers : List Driver
  deriving DecidableEq, Repr

/-- Classification block of compute_silent_collapse_risk
(analytics_engine.py lines 285-290). -/
def classify_collapse (collapse_score : ℤ) : String :=
  if collapse_score ≥ 60 then "Elevated"
  else if collapse_score ≥ 35 then "Watch"
  else "Low"

/-- Placeholder-driver block of compute_silent_collapse_risk
(analytics_engine.py lines 292-294): ensure at least one driver for
non-Low levels. -/
def ensure_driver (drivers : List Driver) (level : String) : List Driver :=
  if drivers = [] ∧ level ≠ "Low" then [Driver.patternUnderObservation]
  else drivers

/-- Embedding of the scoring tail of compute_silent_collapse_risk
(analytics_engine.py lines 238-300), accumulating (collapse_score,
drivers). The three trajectory statistics slope, volatility and
persistence are arguments here: the source computes them from the
simulated trend through float regression and a square root
(compute_stress_slope, compute_stress_volatility,
compute_persistence_score), and every property proved below holds for
all of their possible values. -/
def collapse_scoring (slope volatility : ℚ) (persistence : ℕ)
    (academic_perf final_score : ℤ) (final_level : String) :
    SilentCollapseRisk :=
  let acc : ℤ × List Driver := (0, [])
  -- Factor 1: current stress level must be concerning
  let acc :=
    if final_level = "Moderate" ∨ final_level = "High" then
      (acc.1 + 15 + (if final_level = "High" then 10 else 0), acc.2)
    else acc
  -- Factor 2: rising stress trajectory
  let acc :=
    if slope > 3/10 then
      (acc.1 + 25, acc.2 ++ [Driver.sustainedIncrease])
    else if slope > 3/20 then
      (acc.1 + 15, acc.2 ++ [Driver.gradualIncrease])
    else acc
  -- Factor 3: high volatility (instability)
  let acc :=
    if volatility > 1/2 then
      (acc.1 + 20, acc.2 ++ [Driver.elevatedVariability])
    else if volatility > 3/10 then
      (acc.1 + 10, acc.2 ++ [Driver.moderateFluctuations])
    else acc
  -- Factor 4: persistence (multiple high-stress periods)
  let acc :=
    if persistence ≥ 5 then
      (acc.1 + 20, acc.2 ++ [Driver.extendedSupportNeed persistence])
    else if persistence ≥ 3 then
      (acc.1 + 10, acc.2 ++ [Driver.recurringSupportIndicators persistence])
    else acc
  -- Factor 5: academic stability despite stress (hidden pattern)
  let acc :=
    if academic_perf ≥ 2 ∧ final_score ≥ 40 then
      (acc.1 + 15, acc.2 ++ [Driver.stabilityMaskingStrain])
    else acc
  -- Factor 6: combined risk amplification
  let acc :=
    if slope > 1/5 ∧ persistence ≥ 3 ∧ academic_perf ≥ 2 then
      (acc.1 + 10, acc.2 ++ [Driver.multiPeriodPattern])
    else acc
  -- Normalize to 0-100
  let collapse_score := min 100 acc.1
  -- Classification
  let level := classify_collapse collapse_score
  { level := level, score := collapse_score,
    drivers := ensure_driver acc.2 level }

/-- Fusion proxy score of the ML label (analytics_engine.py line 556). -/
def ml_score_proxy (label : ℤ) : ℤ :=
  if label = 0 then 15
  else if label = 1 then 45
  else if label = 2 then 80
  else 45

/-- Weighted fusion (analytics_engine.py line 559): 60 percent ML proxy
plus 40 percent rule score, truncated by the Python int() conversion. -/
def fusion_final_score (label rule_score : ℤ) : ℤ :=
  pytrunc ((6/10 : ℚ) * (ml_score_proxy label : ℚ)
    + (4/10 : ℚ) * (rule_score : ℚ))

end Analytics

namespace AdminRisk

/-- Embedding of simulate_trend (admin-dashboard/risk_engine.py lines
70-75): a six-step random walk from base_risk, each step clamped to
0..100 after adding a randint(-8, 12) draw (noise oracle). Nothing
forces the last element back to base_risk. -/
def simulate_trend (base_risk : ℤ) (noise : ℕ → ℤ) : List ℤ :=
  ((List.range 6).foldl
    (fun (acc : ℤ × List ℤ) i =>
      let b := acc.1 + noise i
      (b, acc.2 ++ [max 0 (min 100 b)]))
    (base_risk, [])).2

end AdminRisk

section Theorems

/-- Helper: one accumulation step of a rule evaluator equals appending
the (weight, message) contribution of that rule. -/
theorem ruleStep_eq {α : Type} (c : Prop) [Decidable c] (w : ℤ) (t : α)
    (acc : ℤ × List α) :
    ruleStep c w t acc =
      (acc.1 + ((if c then [(w, t)] else []).map Prod.fst).sum,
        acc.2 ++ (if c then [(w, t)] else []).map Prod.snd) := by
  unfold ruleStep
  split_ifs <;> simp

/-- Helper: the weight contribution of one rule is nonnegative when its
weight is. -/
theorem ruleStep_fst_nonneg {α : Type} (c : Prop) [Decidable c] (w : ℤ)
    (t : α) (hw : 0 ≤ w) :
    0 ≤ ((if c then [(w, t)] else []).map Prod.fst).sum := by
  split_ifs <;> simp [hw]

/-- Claim C1: the behavioral rule evaluator returns the capped sum of the
weights of exactly the triggered rules, with one explanation per
triggered rule in evaluation order. -/
theorem behavioral_rule_evaluator_spec (s : AppRisk.Student) :
    AppRisk.compute_risk s =
      (min 100 (((AppRisk.triggeredBehavioralRules s).map Prod.fst).sum),
        (AppRisk.triggeredBehavioralRules s).map Prod.snd) := by
  simp only [AppRisk.compute_risk, AppRisk.triggeredBehavioralRules]
  split_ifs <;> simp_all

/-- Claim C2: the psychometric rule evaluator returns the sum of the
weights of exactly the triggered rules, clamped to the interval 0..100;
a row triggering all nine rules has raw sum 140 and scores exactly 100. -/
theorem psychometric_rule_evaluator_spec (r : Analytics.FeatureRow) :
    Analytics.compute_rule_risk r =
      (min 100 (((Analytics.triggeredPsychRules r).map Prod.fst).sum),
        (Analytics.triggeredPsychRules r).map Prod.snd) ∧
    0 ≤ (Analytics.compute_rule_risk r).1 ∧
    (Analytics.compute_rule_risk r).1 ≤ 100 ∧
    ((Analytics.triggeredPsychRules Analytics.allNineRow).map Prod.fst).sum = 140 ∧
    (Analytics.compute_rule_risk Analytics.allNineRow).1 = 100 := by
  have heq : Analytics.compute_rule_risk r =
      (min 100 (((Analytics.triggeredPsychRules r).map Prod.fst).sum),
        (Analytics.triggeredPsychRules r).map Prod.snd) := by
    simp [Analytics.compute_rule_risk, Analytics.triggeredPsychRules,
      ruleStep_eq, add_assoc]
  have hnonneg : 0 ≤ ((Analytics.triggeredPsychRules r).map Prod.fst).sum := by
    simp only [Analytics.triggeredPsychRules, List.map_append, List.sum_append]
    repeat' apply add_nonneg
    all_goals exact ruleStep_fst_nonneg _ _ _ (by norm_num)
  refine ⟨heq, ?_, ?_, by decide, by decide⟩
  · rw [heq]
    exact le_min (by norm_num) hnonneg
  · rw [heq]
    exact min_le_left 100 _

/-- Claim C3 counterexample: the claim asserts the two risk-level
mappings disagree on some integer score in 0..100; in fact no such
score exists (on integers, being at most 30 coincides with being below
31, and at most 60 with below 61). -/
theorem risk_level_mappings_no_disagreement :
    ¬ ∃ s : ℤ, 0 ≤ s ∧ s ≤ 100 ∧
      AppRisk.get_risk_level s ≠ Analytics.get_risk_level s := by
  rintro ⟨s, -, -, hne⟩
  apply hne
  simp only [AppRisk.get_risk_level, Analytics.get_risk_level]
  split_ifs <;> first | rfl | omega

/-- Claim C3 (amended): the behavioral and psychometric risk-level
mappings agree on every integer score; in particular 30 maps to Low,
31 and 60 to Moderate, and 61 to High in both variants. -/
theorem risk_level_mappings_agree (s : ℤ) :
    AppRisk.get_risk_level s = Analytics.get_risk_level s ∧
    AppRisk.get_risk_level 30 = "Low" ∧ Analytics.get_risk_level 30 = "Low" ∧
    AppRisk.get_risk_level 31 = "Moderate" ∧ Analytics.get_risk_level 31 = "Moderate" ∧
    AppRisk.get_risk_level 60 = "Moderate" ∧ Analytics.get_risk_level 60 = "Moderate" ∧
    AppRisk.get_risk_level 61 = "High" ∧ Analytics.get_risk_level 61 = "High" := by
  refine ⟨?_, by decide, by decide, by decide, by decide, by decide, by decide,
    by decide, by decide⟩
  simp only [AppRisk.get_risk_level, Analytics.get_risk_level]
  split_ifs <;> first | rfl | omega

/-- Claim C4: on the snapshot with attendance 60, three late and one
missed submission, workload 20 up from 10 and previous attendance 80,
the simulator reports original score 85 (High) with rules 1 to 4
triggered and rule 5 not (the drop of exactly 20 is not above 20);
applying both fix flags leaves only the late and missed rules, giving
new score 50 (Moderate) and reduction 35. -/
theorem what_if_worked_example :
    (AppRisk.what_if_simulation AppRisk.exampleStudent AppRisk.bothFixesParams).originalRisk = 85 ∧
    (AppRisk.what_if_simulation AppRisk.exampleStudent AppRisk.bothFixesParams).originalLevel = "High" ∧
    (AppRisk.what_if_simulation AppRisk.exampleStudent AppRisk.bothFixesParams).newRisk = 50 ∧
    (AppRisk.what_if_simulation AppRisk.exampleStudent AppRisk.bothFixesParams).newLevel = "Moderate" ∧
    (AppRisk.what_if_simulation AppRisk.exampleStudent AppRisk.bothFixesParams).riskReduction = 35 ∧
    (AppRisk.compute_risk AppRisk.exampleStudent).2 =
      [AppRisk.Reason.attendanceBelow75 60, AppRisk.Reason.multipleLateSubmissions 3,
        AppRisk.Reason.workloadIncreasedPct 100, AppRisk.Reason.missingAssignments 1] ∧
    (AppRisk.compute_risk
        (AppRisk.modifiedStudent AppRisk.exampleStudent AppRisk.bothFixesParams)).2 =
      [AppRisk.Reason.multipleLateSubmissions 3, AppRisk.Reason.missingAssignments 1] := by
  norm_num [AppRisk.what_if_simulation, AppRisk.modifiedStudent,
    AppRisk.hypoAttendance, AppRisk.hypoWorkload, AppRisk.hypoLate,
    AppRisk.hypoMissed, AppRisk.hypoPrevAttendance, AppRisk.removedRules,
    AppRisk.addedRules, AppRisk.compute_risk, AppRisk.get_risk_level,
    AppRisk.exampleStudent, AppRisk.bothFixesParams]

/-- Helper: overwriting the last position of a nonempty list makes the
written value its last element. -/
theorem getLast?_set_length_sub_one {α : Type} (l : List α) (a : α)
    (h : l ≠ []) : (l.set (l.length - 1) a).getLast? = some a := by
  have hpos : 0 < l.length := List.length_pos.mpr h
  rw [List.getLast?_eq_getElem?, List.length_set]
  exact List.getElem?_set_self (by omega)

/-- Helper: writing position n - 1 of an n-element mapped range and then
taking the last element yields the written value. -/
theorem getLast?_map_range_set {α : Type} (n : ℕ) (f : ℕ → α) (a : α)
    (hn : 1 ≤ n) :
    (((List.range n).map f).set (n - 1) a).getLast? = some a := by
  have hlen : ((List.range n).map f).length = n := by simp
  have hne : (List.range n).map f ≠ [] := by
    intro hf
    rw [hf] at hlen
    simp at hlen
    omega
  have hidx : n - 1 = ((List.range n).map f).length - 1 := by rw [hlen]
  rw [hidx]
  exact getLast?_set_length_sub_one _ _ hne

/-- Claim C5 (amended): in the app behavioral variant (for any positive
number of weeks) and in the analytics psychometric variant, the last
element of the generated trajectory equals the input score exactly; the
admin-dashboard variant lacks the final overwrite and does not satisfy
this (see the counterexample). -/
theorem trend_last_equals_input (row : Analytics.FeatureRow)
    (final_score : ℤ) (noiseA : ℕ → ℤ) (base_risk : ℤ) (weeks : ℕ)
    (startDelta : ℤ) (noiseB : ℕ → ℤ) (hw : 1 ≤ weeks) :
    (Analytics.compute_simulated_trend row final_score noiseA).getLast? =
      some final_score ∧
    (AppRisk.simulate_trend base_risk weeks startDelta noiseB).getLast? =
      some { week := weeks, score := base_risk,
             level := AppRisk.get_risk_level base_risk } := by
  constructor
  · unfold Analytics.compute_simulated_trend
    exact getLast?_map_range_set 8 _ _ (by norm_num)
  · unfold AppRisk.simulate_trend
    exact getLast?_map_range_set weeks _ _ hw

/-- Witness for the amended trajectory-continuity theorem at a concrete
row, score and noise stream. -/
theorem trend_last_equals_input_witness :
    (Analytics.compute_simulated_trend Analytics.allNineRow 42 (fun _ => 3)).getLast? =
      some 42 ∧
    (AppRisk.simulate_trend 50 8 30 (fun _ => 3)).getLast? =
      some { week := 8, score := 50,
             level := AppRisk.get_risk_level 50 } :=
  trend_last_equals_input Analytics.allNineRow 42 (fun _ => 3) 50 8 30
    (fun _ => 3) (by norm_num)

/-- Claim C5 counterexample: the admin-dashboard trend variant does not
force its last element back to the input score; with base risk 50 and
every random increment equal to 1 the trajectory ends at 56. -/
theorem admin_trend_last_differs :
    (AdminRisk.simulate_trend 50 (fun _ => 1)).getLast? = some 56 ∧
    (AdminRisk.simulate_trend 50 (fun _ => 1)).getLast? ≠ some 50 := by
  decide

/-- Helper: the collapse scoring result always has the shape
(classify sc, sc, ensure-driver d (classify sc)) for some accumulated
score sc and driver list d. -/
theorem collapse_scoring_shape (slope volatility : ℚ) (persistence : ℕ)
    (academic_perf final_score : ℤ) (final_level : String) :
    ∃ (sc : ℤ) (d : List Analytics.Driver),
      Analytics.collapse_scoring slope volatility persistence academic_perf
          final_score final_level =
        { level := Analytics.classify_collapse sc, score := sc,
          drivers := Analytics.ensure_driver d (Analytics.classify_collapse sc) } :=
  ⟨_, _, rfl⟩

/-- Claim C6: the silent-collapse assessment is non-Low exactly when its
score is at least 35, and a non-Low assessment always carries a
non-empty driver list (a placeholder driver is substituted when no
factor produced one). -/
theorem collapse_nonlow_has_drivers (slope volatility : ℚ)
    (persistence : ℕ) (academic_perf final_score : ℤ)
    (final_level : String) :
    ((Analytics.collapse_scoring slope volatility persistence academic_perf
        final_score final_level).level ≠ "Low" ↔
      (Analytics.collapse_scoring slope volatility persistence academic_perf
        final_score final_level).score ≥ 35) ∧
    ((Analytics.collapse_scoring slope volatility persistence academic_perf
        final_score final_level).level ≠ "Low" →
      (Analytics.collapse_scoring slope volatility persistence academic_perf
        final_score final_level).drivers ≠ []) := by
  obtain ⟨sc, d, heq⟩ := collapse_scoring_shape slope volatility persistence
    academic_perf final_score final_level
  rw [heq]
  refine ⟨?_, ?_⟩
  · simp only [Analytics.classify_collapse]
    split_ifs with hsc1 hsc2
    · exact ⟨fun _ => by omega, fun _ => by decide⟩
    · exact ⟨fun _ => hsc2, fun _ => by decide⟩
    · exact ⟨fun hl => absurd rfl hl, fun hsc => absurd hsc hsc2⟩
  · intro hne
    simp only [Analytics.ensure_driver]
    split_ifs with hcond
    · simp
    · intro hd
      exact hcond ⟨hd, hne⟩

/-- Witness for the collapse invariant at concrete inputs (score 40,
level Watch, one driver from the stability-masking factor). -/
theorem collapse_nonlow_has_drivers_witness :
    (Analytics.collapse_scoring 0 0 0 2 40 "High").drivers ≠ [] :=
  (collapse_nonlow_has_drivers 0 0 0 2 40 "High").2 (by
    norm_num [Analytics.collapse_scoring, Analytics.classify_collapse,
      Analytics.ensure_driver]
    decide)

/-- Claim C7: the fusion scorer computes the floor of 0.6 times the ML
proxy score plus 0.4 times the rule score, with proxy 15, 45, 80 for
labels 0, 1, 2 and 45 otherwise; label 2 with rule score 50 gives 68,
level High under the psychometric mapping. -/
theorem fusion_scorer_spec (label rule_score : ℤ) (h : 0 ≤ rule_score) :
    Analytics.fusion_final_score label rule_score =
      ⌊(6/10 : ℚ) * ((Analytics.ml_score_proxy label : ℤ) : ℚ)
        + (4/10 : ℚ) * ((rule_score : ℤ) : ℚ)⌋ ∧
    Analytics.ml_score_proxy 0 = 15 ∧ Analytics.ml_score_proxy 1 = 45 ∧
    Analytics.ml_score_proxy 2 = 80 ∧
    (label ≠ 0 → label ≠ 1 → label ≠ 2 → Analytics.ml_score_proxy label = 45) ∧
    Analytics.fusion_final_score 2 50 = 68 ∧
    Analytics.get_risk_level (Analytics.fusion_final_score 2 50) = "High" := by
  have hproxy : (0 : ℤ) ≤ Analytics.ml_score_proxy label := by
    unfold Analytics.ml_score_proxy
    split_ifs <;> norm_num
  have hfloor : Analytics.fusion_final_score label rule_score =
      ⌊(6/10 : ℚ) * ((Analytics.ml_score_proxy label : ℤ) : ℚ)
        + (4/10 : ℚ) * ((rule_score : ℤ) : ℚ)⌋ := by
    have h1 : (0 : ℚ) ≤ ((Analytics.ml_score_proxy label : ℤ) : ℚ) := by
      exact_mod_cast hproxy
    have h2 : (0 : ℚ) ≤ ((rule_score : ℤ) : ℚ) := by exact_mod_cast h
    have hq : (0 : ℚ) ≤ (6/10 : ℚ) * ((Analytics.ml_score_proxy label : ℤ) : ℚ)
        + (4/10 : ℚ) * ((rule_score : ℤ) : ℚ) :=
      add_nonneg (mul_nonneg (by norm_num) h1) (mul_nonneg (by norm_num) h2)
    unfold Analytics.fusion_final_score pytrunc
    rw [if_pos hq]
  have h68 : Analytics.fusion_final_score 2 50 = 68 := by
    norm_num [Analytics.fusion_final_score, Analytics.ml_score_proxy, pytrunc]
  refine ⟨hfloor, by decide, by decide, by decide, ?_, h68, ?_⟩
  · intro h0 h1 h2
    unfold Analytics.ml_score_proxy
    split_ifs <;> simp_all
  · rw [h68]
    decide

/-- Witness for the fusion arithmetic at label 2 and rule score 50. -/
theorem fusion_scorer_spec_witness :
    Analytics.fusion_final_score 2 50 = 68 :=
  (fusion_scorer_spec 2 50 (by norm_num)).2.2.2.2.2.1

/-- Claim C8: the what-if simulator never writes to the original
snapshot: in the state-passing reading, the caller's Student object
after the call is field-for-field the input, and the produced result is
the pure function of the input. -/
theorem what_if_non_mutation (s : AppRisk.Student) (p : AppRisk.WhatIfParams) :
    (AppRisk.what_if_simulation_tracked s p).2 = s ∧
    (AppRisk.what_if_simulation_tracked s p).1 = AppRisk.what_if_simulation s p :=
  ⟨rfl, rfl⟩

/-- Claim C9 counterexample: with a snapshot triggering no rule and an
intervention that only raises the late-submissions target (0 to 1), the
triggered-rule diff is empty and a hypothetical value differs from its
original, yet the simulator emits the no-op message, not the stable
message — the fallback only consults attendance and workload. -/
theorem what_if_fallback_counterexample :
    AppRisk.removedRules AppRisk.calmStudent AppRisk.lateOnlyParams = [] ∧
    AppRisk.addedRules AppRisk.calmStudent AppRisk.lateOnlyParams = [] ∧
    AppRisk.hypoLate AppRisk.calmStudent AppRisk.lateOnlyParams ≠
      AppRisk.calmStudent.late_submissions ∧
    (AppRisk.what_if_simulation AppRisk.calmStudent AppRisk.lateOnlyParams).explanation =
      [AppRisk.Msg.noChangesSimulated] ∧
    [AppRisk.Msg.noChangesSimulated] ≠ [AppRisk.Msg.stableAtBoundaries] := by
  refine ⟨?_, ?_, ?_, ?_, by decide⟩ <;>
    norm_num [AppRisk.what_if_simulation, AppRisk.modifiedStudent,
      AppRisk.hypoAttendance, AppRisk.hypoWorkload, AppRisk.hypoLate,
      AppRisk.hypoMissed, AppRisk.hypoPrevAttendance, AppRisk.removedRules,
      AppRisk.addedRules, AppRisk.compute_risk, AppRisk.calmStudent,
      AppRisk.lateOnlyParams]

/-- Claim C9 (amended): when the triggered-rule diff is empty, the
explanation is the stable message exactly when the hypothetical
attendance or workload differs from the original, and the no-op message
exactly when both agree; differing late or missed targets alone do not
select the stable message. -/
theorem what_if_fallback_spec (s : AppRisk.Student) (p : AppRisk.WhatIfParams)
    (h1 : AppRisk.removedRules s p = [])
    (h2 : AppRisk.addedRules s p = []) :
    ((AppRisk.what_if_simulation s p).explanation =
        [AppRisk.Msg.stableAtBoundaries] ↔
      (AppRisk.hypoAttendance s p ≠ s.attendance_rate ∨
        AppRisk.hypoWorkload s p ≠ s.workload_tasks)) ∧
    ((AppRisk.what_if_simulation s p).explanation =
        [AppRisk.Msg.noChangesSimulated] ↔
      (AppRisk.hypoAttendance s p = s.attendance_rate ∧
        AppRisk.hypoWorkload s p = s.workload_tasks)) := by
  have hmain : (AppRisk.what_if_simulation s p).explanation =
      if AppRisk.hypoAttendance s p ≠ s.attendance_rate ∨
          AppRisk.hypoWorkload s p ≠ s.workload_tasks then
        [AppRisk.Msg.stableAtBoundaries]
      else [AppRisk.Msg.noChangesSimulated] := by
    unfold AppRisk.what_if_simulation
    rw [h1, h2]
    simp
  rw [hmain]
  by_cases hc : AppRisk.hypoAttendance s p ≠ s.attendance_rate ∨
      AppRisk.hypoWorkload s p ≠ s.workload_tasks
  · rw [if_pos hc]
    constructor
    · exact ⟨fun _ => hc, fun _ => rfl⟩
    · constructor
      · intro he
        exact absurd he (by decide)
      · intro hb
        rcases hc with h | h
        · exact absurd hb.1 h
        · exact absurd hb.2 h
  · rw [if_neg hc]
    push_neg at hc
    constructor
    · constructor
      · intro he
        exact absurd he (by decide)
      · intro hb
        rcases hb with h | h
        · exact absurd hc.1 h
        · exact absurd hc.2 h
    · exact ⟨fun _ => hc, fun _ => rfl⟩

/-- Witness for the fallback behavior: with no intervention at all the
diff is empty, values are unchanged, and the no-op message is emitted. -/
theorem what_if_fallback_spec_witness :
    (AppRisk.what_if_simulation AppRisk.calmStudent AppRisk.idParams).explanation =
      [AppRisk.Msg.noChangesSimulated] :=
  (what_if_fallback_spec AppRisk.calmStudent AppRisk.idParams
    (by norm_num [AppRisk.removedRules, AppRisk.modifiedStudent,
      AppRisk.hypoAttendance, AppRisk.hypoWorkload, AppRisk.hypoLate,
      AppRisk.hypoMissed, AppRisk.hypoPrevAttendance, AppRisk.compute_risk,
      AppRisk.calmStudent, AppRisk.idParams])
    (by norm_num [AppRisk.addedRules, AppRisk.modifiedStudent,
      AppRisk.hypoAttendance, AppRisk.hypoWorkload, AppRisk.hypoLate,
      AppRisk.hypoMissed, AppRisk.hypoPrevAttendance, AppRisk.compute_risk,
      AppRisk.calmStudent, AppRisk.idParams])).2.mpr ⟨rfl, rfl⟩

/-- Helper: the behavioral risk score as a capped sum of five
independent if-contributions. -/
theorem compute_risk_fst (s : AppRisk.Student) :
    (AppRisk.compute_risk s).1 =
      min 100 ((if s.attendance_rate < 75 then (20 : ℤ) else 0) +
        ((if s.late_submissions ≥ 2 then (25 : ℤ) else 0) +
        ((if s.previous_workload > 0 ∧
            ((s.workload_tasks : ℚ) - (s.previous_workload : ℚ))
              / (s.previous_workload : ℚ) * 100 > 40 then (15 : ℤ) else 0) +
        ((if s.missed_submissions > 0 then (25 : ℤ) else 0) +
        (if s.previous_attendance - s.attendance_rate > 20 then (15 : ℤ) else 0))))) := by
  simp only [AppRisk.compute_risk]
  split_ifs <;> simp_all

/-- Claim C10: the behavioral risk score is antitone in the attendance
rate — raising attendance, all other fields fixed, never raises the
score (only the below-75 rule and the sudden-drop rule read attendance,
and both are antitone in it). -/
theorem compute_risk_antitone_attendance (s : AppRisk.Student) (a1 a2 : ℚ)
    (h : a1 ≤ a2) :
    (AppRisk.compute_risk { s with attendance_rate := a2 }).1 ≤
      (AppRisk.compute_risk { s with attendance_rate := a1 }).1 := by
  rw [compute_risk_fst, compute_risk_fst]
  simp only
  apply min_le_min (le_refl 100)
  have hr1 : (if a2 < 75 then (20 : ℤ) else 0) ≤ (if a1 < 75 then (20 : ℤ) else 0) := by
    split_ifs with hb1 hb2 <;> first | omega | linarith
  have hr5 : (if s.previous_attendance - a2 > 20 then (15 : ℤ) else 0) ≤
      (if s.previous_attendance - a1 > 20 then (15 : ℤ) else 0) := by
    split_ifs with hb1 hb2 <;> first | omega | linarith
  exact add_le_add hr1 (add_le_add (le_refl _) (add_le_add (le_refl _)
    (add_le_add (le_refl _) hr5)))

/-- Witness for attendance antitonicity on the example snapshot at
attendance 60 versus 90. -/
theorem compute_risk_antitone_attendance_witness :
    (AppRisk.compute_risk { AppRisk.exampleStudent with attendance_rate := 90 }).1 ≤
      (AppRisk.compute_risk { AppRisk.exampleStudent with attendance_rate := 60 }).1 :=
  compute_risk_antitone_attendance AppRisk.exampleStudent 60 90 (by norm_num)

end Theorems
